import Mathlib

/-!
Shallow embedding of `src/lib/lib.ts` (dais-web3.js): the `ProtocolFileWriter`
aggregation engine.

Modelling conventions:
* JS promises become `Except ε` values; a rejected promise is `Except.error`.
* The engine's mutable singleton fields (`#madeDirs`, `#addresses`, `#abis`)
  become an explicit `WriterState` threaded through the functions.
* The external per-protocol writers (`BancorWriter`, `DyDxWriter`, from
  `src/lib/protocols/*`, not part of the embedded file) are parameters
  (`WriterEnv`); the generators defined inline in `lib.ts` (KYBER, ONEINCH,
  UNISWAP, ERROR) are embedded concretely.
* `Promise.all` fan-out in `#work` is single-threaded cooperative concurrency
  in the source; each result is folded by a synchronous step.  The embedding
  processes the batch sequentially in input order (one interleaving schedule);
  `Promise.all` returns its results in input order, which the embedding keeps.
* `makeDir` / `makeFile` side effects are recorded as traces (lists of paths /
  file writes); the filesystem primitives themselves are assumed to succeed.
* `path.resolve` is treated as the identity on the already-joined path string.
-/

/-- The supported protocol identifiers (`SupportedProtocolsArray` of
`src/lib/daisconfig.ts`): the keys of the `protocols` dispatch table in
`lib.ts` other than `ERROR`. -/
inductive SupportedProtocol
  | BANCOR | DYDX | KYBER | ONEINCH | UNISWAP
deriving DecidableEq, Repr

/-- Keys of the `protocols` dispatch table and of the `#abis` / `#addresses`
buckets: every supported protocol plus the `ERROR` sentinel. -/
inductive ProtocolKey
  | proto (p : SupportedProtocol)
  | ERROR
deriving DecidableEq, Repr

/-- The supported networks (`SupportedNetwork` of `src/lib/daisconfig.ts`):
the three network keys used by `#addresses` in `lib.ts`. -/
inductive SupportedNetwork
  | MAINNET | KOVAN | ROPSTEN
deriving DecidableEq, Repr

/-- The `net` argument of `main` / `#work`: `SupportedNetwork | 'all'`. -/
inductive NetworkArg
  | net (n : SupportedNetwork)
  | all
deriving DecidableEq, Repr

/-- A contract import (`IContractImport`).  Only the `protocol` field is read
by `lib.ts` itself; the remaining fields are consumed opaquely by the external
writers and are not modelled. -/
structure IContractImport where
  protocol : String
deriving DecidableEq, Repr

/-- One ABI fragment returned by a writer (`IABIReturn`); `lib.ts` reads only
its `ABI` string. -/
structure IABIReturn where
  ABI : String
deriving DecidableEq, Repr

/-- One address record returned by a writer. -/
structure IAddressReturn where
  ContractName : String
  Address : String
  NET : SupportedNetwork
deriving DecidableEq, Repr

/-- The result every generator resolves with (`IWriterReturn`). -/
structure IWriterReturn where
  ABIs : List IABIReturn
  Addresses : List IAddressReturn
  Pack : String
deriving DecidableEq, Repr

/-- An entry pushed into `#addresses[protocol][net]` (lib.ts lines 126-129):
only `ContractName` and `Address` are kept. -/
structure AddressEntry where
  ContractName : String
  Address : String
deriving DecidableEq, Repr

/-- A `makeFile` call: target path and contents. -/
structure FileWrite where
  path : String
  contents : String
deriving DecidableEq, Repr

/-- The mutable fields of the `ProtocolFileWriter` singleton: the `#madeDirs`
flags, the `#abis` buckets and the `#addresses` buckets. -/
structure WriterState where
  madeDirs : SupportedProtocol → Bool
  abis : ProtocolKey → List IABIReturn
  addresses : ProtocolKey → SupportedNetwork → List AddressEntry

/-- The singleton's initial state: every flag `false`, every bucket empty
(lib.ts lines 34-77). -/
def initState : WriterState :=
  { madeDirs := fun _ => false
    abis := fun _ => []
    addresses := fun _ _ => [] }

/-- JS `String.prototype.toUpperCase` restricted to the code points the config
strings use (ASCII): uppercase every character. -/
def jsToUpper (s : String) : String :=
  ⟨s.data.map Char.toUpper⟩

/-- Lines 116-117 of `lib.ts`: uppercase the import's protocol and fall back
to `ERROR` when the result is not a key of the `protocols` table. -/
def parseProtocolKey (s : String) : ProtocolKey :=
  if s = "BANCOR" then .proto .BANCOR
  else if s = "DYDX" then .proto .DYDX
  else if s = "KYBER" then .proto .KYBER
  else if s = "ONEINCH" then .proto .ONEINCH
  else if s = "UNISWAP" then .proto .UNISWAP
  else .ERROR

/-- The dispatch key `#work` computes for a contract import. -/
def importKey (ci : IContractImport) : ProtocolKey :=
  parseProtocolKey (jsToUpper ci.protocol)

/-- The external writers (`BancorWriter`, `DyDxWriter`), as abstract
capabilities: they may resolve with any `IWriterReturn` or reject with an
error `ε`. -/
structure WriterEnv (ε : Type) where
  bancorWriter : String → String → NetworkArg → IContractImport → Except ε IWriterReturn
  dydxWriter : String → String → NetworkArg → IContractImport → Except ε IWriterReturn

/-- The empty writer result `{ ABIs: [], Addresses: [], Pack: '' }` returned by
the KYBER, ONEINCH, UNISWAP and ERROR generators. -/
def emptyWriterReturn : IWriterReturn :=
  { ABIs := [], Addresses := [], Pack := "" }

/-- Directory provisioning inside `#bancor` (lines 201-206) and `#dydx`
(lines 218-224): when the protocol's `#madeDirs` flag is `false`, create that
protocol's support directories and set the flag; otherwise do nothing.
Returns the updated state and the list of directories created.  The other
generators perform no directory work. -/
def provision (dir : String) (p : SupportedProtocol) (s : WriterState) :
    WriterState × List String :=
  match p with
  | .BANCOR =>
    if s.madeDirs .BANCOR then (s, [])
    else
      ({ s with madeDirs := fun q => if q = .BANCOR then true else s.madeDirs q },
        [dir ++ "/contracts/interfaces/Bancor"])
  | .DYDX =>
    if s.madeDirs .DYDX then (s, [])
    else
      ({ s with madeDirs := fun q => if q = .DYDX then true else s.madeDirs q },
        [dir ++ "/contracts/interfaces/DyDx", dir ++ "/contracts/libraries/DyDx"])
  | _ => (s, [])

/-- State after the provisioning step a generator performs for its key. -/
def provisionFor (key : ProtocolKey) (dir : String) (s : WriterState) : WriterState :=
  match key with
  | .proto p => (provision dir p s).1
  | .ERROR => s

/-- The value the `protocols[key]` generator resolves or rejects with
(lib.ts lines 230-261).  BANCOR and DYDX delegate to the external writers;
KYBER, ONEINCH and UNISWAP resolve with empty data; ERROR logs a diagnostic
and resolves with empty data (it never rejects). -/
def generatorResult {ε : Type} (env : WriterEnv ε) (key : ProtocolKey)
    (dir solver : String) (net : NetworkArg) (ci : IContractImport) :
    Except ε IWriterReturn :=
  match key with
  | .proto .BANCOR => env.bancorWriter dir solver net ci
  | .proto .DYDX => env.dydxWriter dir solver net ci
  | .proto .KYBER => Except.ok emptyWriterReturn
  | .proto .ONEINCH => Except.ok emptyWriterReturn
  | .proto .UNISWAP => Except.ok emptyWriterReturn
  | .ERROR => Except.ok emptyWriterReturn

/-- One `push` into `#addresses[key][address.NET]` (lines 125-130). -/
def pushAddress (key : ProtocolKey) (a : IAddressReturn)
    (m : ProtocolKey → SupportedNetwork → List AddressEntry) :
    ProtocolKey → SupportedNetwork → List AddressEntry :=
  fun k n =>
    if k = key then
      if n = a.NET then m k n ++ [{ ContractName := a.ContractName, Address := a.Address }]
      else m k n
    else m k n

/-- The synchronous fold step of `#work` (lines 120-132): append the result's
ABI fragments to the key's `#abis` bucket and push each address record into
the key's per-network `#addresses` bucket. -/
def foldResult (key : ProtocolKey) (val : IWriterReturn) (s : WriterState) :
    WriterState :=
  { s with
    abis := fun k => if k = key then s.abis k ++ val.ABIs else s.abis k
    addresses := val.Addresses.foldl (fun m a => pushAddress key a m) s.addresses }

/-- The batch dispatcher `#work` (lines 109-135): dispatch every contract import to its generator,
fold each resolved result into the state, and resolve with the list of each
result's `Pack` string (in input order, as `Promise.all` returns them).  If a
generator rejects, the whole batch rejects with that error. -/
def work {ε : Type} (env : WriterEnv ε) (solver : String)
    (contractImports : List IContractImport) (dir : String) (net : NetworkArg)
    (s : WriterState) : Except ε (List String) × WriterState :=
  match contractImports with
  | [] => (Except.ok [], s)
  | ci :: rest =>
    let key := importKey ci
    let s1 := provisionFor key dir s
    match generatorResult env key dir solver net ci with
    | Except.error e => (Except.error e, s1)
    | Except.ok val =>
      match work env solver rest dir net (foldResult key val s1) with
      | (Except.error e, s3) => (Except.error e, s3)
      | (Except.ok packs, s3) => (Except.ok (val.Pack :: packs), s3)

example :
    (work (ε := Unit) ⟨fun _ _ _ _ => Except.ok emptyWriterReturn,
      fun _ _ _ _ => Except.ok emptyWriterReturn⟩ "0.8.0"
      [{ protocol := "kyber" }] "proj" .all initState).1 = Except.ok [""] := rfl

/-- Model of JS `String.prototype.trim`: drop leading and trailing whitespace
characters. -/
def jsTrim (s : String) : String :=
  ⟨((s.data.dropWhile Char.isWhitespace).reverse.dropWhile Char.isWhitespace).reverse⟩

/-- The name under which a supported protocol is keyed. -/
def protoName : SupportedProtocol → String
  | .BANCOR => "BANCOR"
  | .DYDX => "DYDX"
  | .KYBER => "KYBER"
  | .ONEINCH => "ONEINCH"
  | .UNISWAP => "UNISWAP"

/-- The name of a bucket key as it appears in `Object.entries`. -/
def keyName : ProtocolKey → String
  | .proto p => protoName p
  | .ERROR => "ERROR"

/-- The name of a network as it appears in `Object.entries`. -/
def netName : SupportedNetwork → String
  | .MAINNET => "MAINNET"
  | .KOVAN => "KOVAN"
  | .ROPSTEN => "ROPSTEN"

/-- Insertion order of the supported-protocol keys (the order of
`SupportedProtocolsArray`, matching the `protocols` table literal). -/
def protoOrder : List SupportedProtocol :=
  [.BANCOR, .DYDX, .KYBER, .ONEINCH, .UNISWAP]

/-- Iteration order of `Object.entries` over the `#abis` / `#addresses`
buckets: the supported protocols in insertion order, then `ERROR`
(lib.ts lines 50-77). -/
def entriesOrder : List ProtocolKey :=
  protoOrder.map .proto ++ [.ERROR]

/-- Iteration order of `Object.entries` over one protocol's network buckets
(lib.ts lines 53-58). -/
def netOrder : List SupportedNetwork :=
  [.MAINNET, .KOVAN, .ROPSTEN]

/-- The contents `#buildABIFile` (lines 137-156) writes: for each bucket in
entries order, skip it when it has no fragments or is `ERROR`, otherwise
append a named `export const <KEY>_ABI = {` grouping with one indented
`<ABI>,` line per fragment; finally trim the whole string. -/
def buildABIString (s : WriterState) : String :=
  (entriesOrder.foldl
    (fun acc kv =>
      if (s.abis kv).length == 0 || kv == ProtocolKey.ERROR then acc
      else
        ((s.abis kv).foldl (fun a abi => a ++ "\n  " ++ abi.ABI ++ ",")
          (acc ++ "\nexport const " ++ keyName kv ++ "_ABI = \x7b")) ++ "\n\x7d")
    "") |> jsTrim

/-- The contents `#buildAddressesFile` (lines 158-191) writes: starting from
`export const Addresses = {`, for each non-`ERROR` bucket whose three network
lists are not all empty, append a `<KEY>: {` grouping; inside it, for each
non-empty network in entries order, a `<NET>: {` grouping with one
`<ContractName>: <Address>,` line per record; finally append `\n}` and trim. -/
def buildAddressesString (s : WriterState) : String :=
  ((entriesOrder.foldl
    (fun acc kv =>
      if kv == ProtocolKey.ERROR
          || ((s.addresses kv .MAINNET).length == 0
              && (s.addresses kv .KOVAN).length == 0
              && (s.addresses kv .ROPSTEN).length == 0) then acc
      else
        (netOrder.foldl
          (fun a n =>
            if (s.addresses kv n).length == 0 then a
            else
              ((s.addresses kv n).foldl
                (fun b addr => b ++ "\n      " ++ addr.ContractName ++ ": " ++ addr.Address ++ ",")
                (a ++ "\n    " ++ netName n ++ ": \x7b")) ++ "\n    \x7d,")
          (acc ++ "\n  " ++ keyName kv ++ ": \x7b")) ++ "\n  \x7d,\n")
    "export const Addresses = \x7b") ++ "\n\x7d") |> jsTrim

/-- Model of `[...new Set(val)]` (lib.ts line 102): keep the first occurrence
of each element, in insertion order. -/
def dedupe (l : List String) : List String :=
  l.foldl (fun acc x => if x ∈ acc then acc else acc ++ [x]) []

/-- The four directories `makeBaseDirs` (lines 264-271) always creates before
any dispatch. -/
def makeBaseDirs (dir : String) : List String :=
  [dir ++ "/contracts/interfaces", dir ++ "/contracts/libraries",
   dir ++ "/lib", dir ++ "/migrations"]

/-- The orchestrator `main` (lines 89-107): create the base directories, run `#work`, and on
success write the ABI file and the addresses file and resolve with the
deduplicated pack list; any rejection propagates unchanged and skips the two
file-building steps.  The third component records the `makeFile` calls
performed. -/
def ProtocolFileWriter.main {ε : Type} (env : WriterEnv ε) (dir : String)
    (contractImports : List IContractImport) (solver : String)
    (net : NetworkArg) (s : WriterState) :
    Except ε (List String) × WriterState × List FileWrite :=
  match work env solver contractImports dir net s with
  | (Except.error e, s1) => (Except.error e, s1, [])
  | (Except.ok val, s1) =>
    (Except.ok (dedupe val), s1,
      [{ path := dir ++ "/lib/abis.ts", contents := buildABIString s1 },
       { path := dir ++ "/lib/addresses.ts", contents := buildAddressesString s1 }])

/-- Concatenation of a list of strings, used by the spec-side renderers. -/
def strJoin : List String → String
  | [] => ""
  | x :: l => x ++ strJoin l

/-- The spec's ABI-registry renderer, stated in its words: for each protocol
bucket (excluding ERROR) with at least one ABI fragment, a named export
grouping of each fragment's raw ABI in stored order; protocols with zero
fragments omitted; the result trimmed.  To be compared with
`buildABIString`. -/
def renderAbiRegistrySpec (s : WriterState) : String :=
  (strJoin ((protoOrder.filter (fun p => !((s.abis (.proto p)).length == 0))).map
    (fun p =>
      "\nexport const " ++ protoName p ++ "_ABI = \x7b"
        ++ strJoin ((s.abis (.proto p)).map (fun abi => "\n  " ++ abi.ABI ++ ","))
        ++ "\n\x7d"))) |> jsTrim

/-- The spec's address-registry renderer, stated in its words: a single
export object; for each protocol (excluding ERROR) with at least one address
record in any network, a nested object keyed by network with
`contractName: address` entries in stored order; empty networks and empty
protocols omitted.  To be compared with `buildAddressesString`. -/
def renderAddressRegistrySpec (s : WriterState) : String :=
  ("export const Addresses = \x7b"
    ++ strJoin ((protoOrder.filter
        (fun p => netOrder.any (fun n => !((s.addresses (.proto p) n).length == 0)))).map
      (fun p =>
        "\n  " ++ protoName p ++ ": \x7b"
          ++ strJoin ((netOrder.filter
              (fun n => !((s.addresses (.proto p) n).length == 0))).map
            (fun n =>
              "\n    " ++ netName n ++ ": \x7b"
                ++ strJoin ((s.addresses (.proto p) n).map
                  (fun a => "\n      " ++ a.ContractName ++ ": " ++ a.Address ++ ","))
                ++ "\n    \x7d,"))
          ++ "\n  \x7d,\n"))
    ++ "\n\x7d") |> jsTrim

/-- An environment in which both external writers resolve with empty data. -/
def envTrivial : WriterEnv Unit :=
  { bancorWriter := fun _ _ _ _ => Except.ok emptyWriterReturn
    dydxWriter := fun _ _ _ _ => Except.ok emptyWriterReturn }

/-- An environment in which the Bancor writer rejects. -/
def envFail : WriterEnv String :=
  { bancorWriter := fun _ _ _ _ => Except.error "BancorWriter rejected"
    dydxWriter := fun _ _ _ _ => Except.ok emptyWriterReturn }

/-- An environment in which the Bancor writer resolves with one ABI fragment,
one MAINNET address record and a dependency pack. -/
def envAbi : WriterEnv Unit :=
  { bancorWriter := fun _ _ _ _ => Except.ok
      { ABIs := [{ ABI := "BANCOR_CONTRACT_ABI" }]
        Addresses := [{ ContractName := "BancorNetwork", Address := "0xBANCOR",
                        NET := .MAINNET }]
        Pack := "@bancor/sdk" }
    dydxWriter := fun _ _ _ _ => Except.ok emptyWriterReturn }

/-- The `Pack` string a resolved generator result contributes (`val.Pack`,
lib.ts line 132); an error contributes nothing. -/
def exceptPack {ε : Type} : Except ε IWriterReturn → String
  | Except.ok v => v.Pack
  | Except.error _ => ""

/-- The invariant that the `ERROR` bucket holds no ABI fragments and no
address records. -/
def errorBucketEmpty (s : WriterState) : Prop :=
  s.abis ProtocolKey.ERROR = [] ∧ ∀ n, s.addresses ProtocolKey.ERROR n = []

/-- One engine state grows into another: every set `#madeDirs` flag stays
set and every bucket keeps its existing entries as an initial segment, only
gaining appended ones.  Relates the state a run starts from to the state it
leaves behind. -/
def stateGrows (s s' : WriterState) : Prop :=
  (∀ p, s.madeDirs p = true → s'.madeDirs p = true) ∧
    (∀ k, ∃ t, s'.abis k = s.abis k ++ t) ∧
    (∀ k n, ∃ t, s'.addresses k n = s.addresses k n ++ t)

/-! Theorems. -/

/-- C10: on a state with no ABI fragments the rendered ABI registry is the
empty string, while on a state with no address records the rendered address
registry is still the non-empty text `export const Addresses = \x7b` followed
by the closing brace. -/
theorem empty_state_artifacts (s : WriterState)
    (ha : ∀ k, s.abis k = []) (hb : ∀ k n, s.addresses k n = []) :
    buildABIString s = "" ∧
      buildAddressesString s = "export const Addresses = \x7b\n\x7d" ∧
      buildAddressesString s ≠ "" := by
  refine ⟨?_, ?_, ?_⟩
  · simp only [buildABIString, entriesOrder, protoOrder, ha]
    decide
  · simp only [buildAddressesString, entriesOrder, protoOrder, hb]
    decide
  · simp only [buildAddressesString, entriesOrder, protoOrder, hb]
    decide

/-- Closed witness for `empty_state_artifacts` at the initial state. -/
theorem empty_state_artifacts_witness :
    buildABIString initState = "" ∧
      buildAddressesString initState = "export const Addresses = \x7b\n\x7d" ∧
      buildAddressesString initState ≠ "" :=
  empty_state_artifacts initState (fun _ => rfl) (fun _ _ => rfl)

/-- C4: an import whose uppercased protocol equals a supported protocol's
identifier is routed to that protocol's generator key, never to `ERROR`. -/
theorem dispatch_supported_protocol (p : SupportedProtocol) (ci : IContractImport)
    (h : jsToUpper ci.protocol = protoName p) :
    importKey ci = ProtocolKey.proto p ∧ importKey ci ≠ ProtocolKey.ERROR := by
  unfold importKey
  rw [h]
  cases p <;> decide

/-- Closed witness for `dispatch_supported_protocol`: the mixed-case spelling
`uniSwap` routes to the UNISWAP generator. -/
theorem dispatch_supported_protocol_witness :
    jsToUpper "uniSwap" = protoName SupportedProtocol.UNISWAP ∧
      (importKey { protocol := "uniSwap" } = ProtocolKey.proto SupportedProtocol.UNISWAP ∧
        importKey { protocol := "uniSwap" } ≠ ProtocolKey.ERROR) :=
  ⟨by decide, dispatch_supported_protocol SupportedProtocol.UNISWAP
    { protocol := "uniSwap" } (by decide)⟩

/-- C3: an import whose uppercased protocol is unsupported is routed to the
`ERROR` generator, which resolves (never rejects) with empty ABI and address
data and an empty pack; dispatching it resolves the batch and leaves every
bucket unchanged. -/
theorem dispatch_unsupported_protocol {ε : Type} (env : WriterEnv ε)
    (dir solver : String) (net : NetworkArg) (ci : IContractImport) (s : WriterState)
    (h : importKey ci = ProtocolKey.ERROR) :
    generatorResult env (importKey ci) dir solver net ci = Except.ok emptyWriterReturn ∧
      (work env solver [ci] dir net s).1 = Except.ok [""] ∧
      (∀ k, ((work env solver [ci] dir net s).2).abis k = s.abis k) ∧
      (∀ k n, ((work env solver [ci] dir net s).2).addresses k n = s.addresses k n) ∧
      (∀ p, ((work env solver [ci] dir net s).2).madeDirs p = s.madeDirs p) := by
  refine ⟨by rw [h]; rfl, ?_, ?_, ?_, ?_⟩ <;>
    simp [work, h, generatorResult, provisionFor, foldResult, emptyWriterReturn]

/-- Closed witness for `dispatch_unsupported_protocol` at the unsupported
spelling `made_up`. -/
theorem dispatch_unsupported_protocol_witness :
    importKey { protocol := "made_up" } = ProtocolKey.ERROR ∧
      (work envTrivial "0.8.0" [{ protocol := "made_up" }] "proj" NetworkArg.all
        initState).1 = Except.ok [""] :=
  ⟨by decide,
    (dispatch_unsupported_protocol envTrivial "proj" "0.8.0" NetworkArg.all
      { protocol := "made_up" } initState (by decide)).2.1⟩

/-- C8: for a protocol with a directory-provisioning path (BANCOR or DYDX),
starting from an unset flag, the first invocation creates that protocol's
directories and sets the flag; the second invocation creates nothing and
leaves the state unchanged. -/
theorem provision_idempotent (dir : String) (p : SupportedProtocol) (s : WriterState)
    (hp : p = SupportedProtocol.BANCOR ∨ p = SupportedProtocol.DYDX)
    (h : s.madeDirs p = false) :
    (provision dir p s).2 ≠ [] ∧
      ((provision dir p s).1).madeDirs p = true ∧
      (provision dir p (provision dir p s).1).2 = [] ∧
      (provision dir p (provision dir p s).1).1 = (provision dir p s).1 := by
  rcases hp with rfl | rfl <;> simp [provision, h]

/-- Closed witness for `provision_idempotent` for BANCOR at the initial
state. -/
theorem provision_idempotent_witness :
    initState.madeDirs SupportedProtocol.BANCOR = false ∧
      ((provision "proj" SupportedProtocol.BANCOR initState).2 ≠ [] ∧
        ((provision "proj" SupportedProtocol.BANCOR initState).1).madeDirs
          SupportedProtocol.BANCOR = true ∧
        (provision "proj" SupportedProtocol.BANCOR
          (provision "proj" SupportedProtocol.BANCOR initState).1).2 = [] ∧
        (provision "proj" SupportedProtocol.BANCOR
          (provision "proj" SupportedProtocol.BANCOR initState).1).1 =
          (provision "proj" SupportedProtocol.BANCOR initState).1) :=
  ⟨rfl, provision_idempotent "proj" SupportedProtocol.BANCOR initState (Or.inl rfl) rfl⟩

/-- C1, counterexample: the claim states that the list `#work` resolves to
contains only the non-empty dependency packs of the invoked generators; but a
KYBER import's generator resolves with the empty pack and `#work` still
includes that empty string in its resolved list. -/
theorem work_keeps_empty_packs_counterexample :
    (work envTrivial "0.8.0" [{ protocol := "KYBER" }] "proj" NetworkArg.all
        initState).1 = Except.ok [""] ∧
      ¬ (∀ l, (work envTrivial "0.8.0" [{ protocol := "KYBER" }] "proj" NetworkArg.all
          initState).1 = Except.ok l → ∀ x ∈ l, x ≠ "") := by
  refine ⟨rfl, fun hcl => ?_⟩
  exact hcl [""] rfl "" (by simp) rfl

/-- C1, amended: when every invoked generator resolves, `#work` resolves to
the list of every generator's `Pack` string, one per import in input order,
with empty packs included rather than dropped. -/
theorem work_resolves_all_packs {ε : Type} (env : WriterEnv ε) (solver dir : String)
    (net : NetworkArg) (cis : List IContractImport) (s : WriterState)
    (h : ∀ ci ∈ cis, ∃ v, generatorResult env (importKey ci) dir solver net ci = Except.ok v) :
    (work env solver cis dir net s).1 =
      Except.ok (cis.map fun ci =>
        exceptPack (generatorResult env (importKey ci) dir solver net ci)) := by
  induction cis generalizing s with
  | nil => rfl
  | cons ci rest ih =>
    obtain ⟨v, hv⟩ := h ci (List.mem_cons_self ci rest)
    have hrest := fun c hc => h c (List.mem_cons_of_mem ci hc)
    have ihr := ih hrest (s := foldResult (importKey ci) v (provisionFor (importKey ci) dir s))
    simp only [work, hv, List.map_cons]
    cases hw : work env solver rest dir net
        (foldResult (importKey ci) v (provisionFor (importKey ci) dir s)) with
    | mk r s3 =>
      have hr : r = Except.ok (rest.map fun c =>
          exceptPack (generatorResult env (importKey c) dir solver net c)) := by
        rw [← ihr, hw]
      subst hr
      simp [exceptPack, hv]

/-- Closed witness for `work_resolves_all_packs`: one KYBER import resolves
to the singleton list holding the empty pack. -/
theorem work_resolves_all_packs_witness :
    (work envTrivial "0.8.0" [{ protocol := "KYBER" }] "proj" NetworkArg.all
        initState).1 = Except.ok [""] := by
  have h : ∀ ci ∈ ([{ protocol := "KYBER" }] : List IContractImport), ∃ v,
      generatorResult envTrivial (importKey ci) "proj" "0.8.0" NetworkArg.all ci =
        Except.ok v := by
    intro ci hci
    rcases List.mem_singleton.mp hci with rfl
    exact ⟨emptyWriterReturn, rfl⟩
  have := work_resolves_all_packs envTrivial "0.8.0" "proj" NetworkArg.all
    [{ protocol := "KYBER" }] initState h
  simpa [exceptPack] using this

/-- Helper for C2: when some import's generator rejects, `#work` rejects with
the error of one of the rejecting generators. -/
theorem work_rejects_of_generator_error {ε : Type} (env : WriterEnv ε)
    (solver dir : String) (net : NetworkArg) (cis : List IContractImport)
    (s : WriterState)
    (h : ∃ ci ∈ cis, ∃ e, generatorResult env (importKey ci) dir solver net ci = Except.error e) :
    ∃ ci ∈ cis, ∃ e,
      generatorResult env (importKey ci) dir solver net ci = Except.error e ∧
        (work env solver cis dir net s).1 = Except.error e := by
  induction cis generalizing s with
  | nil => simp at h
  | cons ci rest ih =>
    cases hv : generatorResult env (importKey ci) dir solver net ci with
    | error e =>
      refine ⟨ci, List.mem_cons_self ci rest, e, hv, ?_⟩
      simp only [work, hv]
    | ok v =>
      obtain ⟨ci', hmem, e', he'⟩ := h
      have hmem' : ci' ∈ rest := by
        rcases List.mem_cons.mp hmem with rfl | hr
        · rw [hv] at he'; exact absurd he' (by simp)
        · exact hr
      obtain ⟨ci'', hmem'', e'', he'', hwork⟩ :=
        ih (s := foldResult (importKey ci) v (provisionFor (importKey ci) dir s))
          ⟨ci', hmem', e', he'⟩
      refine ⟨ci'', List.mem_cons_of_mem ci hmem'', e'', he'', ?_⟩
      simp only [work, hv]
      cases hw : work env solver rest dir net
          (foldResult (importKey ci) v (provisionFor (importKey ci) dir s)) with
      | mk r s3 =>
        rw [hw] at hwork
        simp only at hwork
        subst hwork
        rfl

/-- C2: when at least one generator invocation in the batch rejects, `main`
rejects with that same error and performs no `makeFile` call: neither the ABI
file nor the addresses file is built. -/
theorem main_rejects_on_generator_failure {ε : Type} (env : WriterEnv ε)
    (dir solver : String) (net : NetworkArg) (cis : List IContractImport)
    (s : WriterState)
    (h : ∃ ci ∈ cis, ∃ e, generatorResult env (importKey ci) dir solver net ci = Except.error e) :
    (∃ ci ∈ cis, ∃ e,
        generatorResult env (importKey ci) dir solver net ci = Except.error e ∧
          (ProtocolFileWriter.main env dir cis solver net s).1 = Except.error e) ∧
      (ProtocolFileWriter.main env dir cis solver net s).2.2 = [] := by
  obtain ⟨ci, hmem, e, he, hwork⟩ := work_rejects_of_generator_error env solver dir net cis s h
  constructor
  · refine ⟨ci, hmem, e, he, ?_⟩
    unfold ProtocolFileWriter.main
    cases hw : work env solver cis dir net s with
    | mk r s1 =>
      rw [hw] at hwork
      simp only at hwork
      subst hwork
      rfl
  · unfold ProtocolFileWriter.main
    cases hw : work env solver cis dir net s with
    | mk r s1 =>
      rw [hw] at hwork
      simp only at hwork
      subst hwork
      rfl

/-- Closed witness for `main_rejects_on_generator_failure`: a rejecting
Bancor writer makes `main` reject with its error and write no files. -/
theorem main_rejects_on_generator_failure_witness :
    (ProtocolFileWriter.main envFail "proj" [{ protocol := "bancor" }] "0.8.0"
        NetworkArg.all initState).1 = Except.error "BancorWriter rejected" ∧
      (ProtocolFileWriter.main envFail "proj" [{ protocol := "bancor" }] "0.8.0"
        NetworkArg.all initState).2.2 = [] :=
  ⟨rfl,
    (main_rejects_on_generator_failure envFail "proj" "0.8.0" NetworkArg.all
      [{ protocol := "bancor" }] initState
      ⟨{ protocol := "bancor" }, List.mem_singleton.mpr rfl,
        "BancorWriter rejected", rfl⟩).2⟩

/-- Helper for C5: the dedupe fold keeps its accumulator duplicate-free. -/
theorem dedupe_foldl_nodup (l : List String) :
    ∀ acc : List String, acc.Nodup →
      (l.foldl (fun acc x => if x ∈ acc then acc else acc ++ [x]) acc).Nodup := by
  induction l with
  | nil => intro acc h; exact h
  | cons x xs ih =>
    intro acc h
    simp only [List.foldl_cons]
    by_cases hx : x ∈ acc
    · simpa [hx] using ih acc h
    · have : (acc ++ [x]).Nodup := by simp [List.nodup_append, h, hx]
      simpa [hx] using ih (acc ++ [x]) this

/-- Helper for C5: membership in the dedupe fold's result. -/
theorem dedupe_foldl_mem (l : List String) :
    ∀ (acc : List String) (y : String),
      (y ∈ l.foldl (fun acc x => if x ∈ acc then acc else acc ++ [x]) acc ↔
        y ∈ acc ∨ y ∈ l) := by
  induction l with
  | nil => intro acc y; simp
  | cons x xs ih =>
    intro acc y
    simp only [List.foldl_cons]
    by_cases hx : x ∈ acc
    · rw [if_pos hx, ih acc y]
      constructor
      · rintro (h | h)
        · exact Or.inl h
        · exact Or.inr (List.mem_cons_of_mem x h)
      · rintro (h | h)
        · exact Or.inl h
        · rcases List.mem_cons.mp h with rfl | h
          · exact Or.inl hx
          · exact Or.inr h
    · rw [if_neg hx, ih (acc ++ [x]) y]
      simp only [List.mem_append, List.mem_singleton, List.mem_cons]
      tauto

/-- C5: when the batch resolves, `main` resolves with the deduplicated pack
list: it has no duplicate elements, and any pack occurring in the batch's
resolved list (for instance one returned identically by two imports) occurs
exactly once in the returned list. -/
theorem main_dedupes_packs {ε : Type} (env : WriterEnv ε) (dir solver : String)
    (net : NetworkArg) (cis : List IContractImport) (s : WriterState)
    (packs : List String)
    (h : (work env solver cis dir net s).1 = Except.ok packs) :
    (ProtocolFileWriter.main env dir cis solver net s).1 = Except.ok (dedupe packs) ∧
      (dedupe packs).Nodup ∧
      ∀ x ∈ packs, (dedupe packs).count x = 1 := by
  have hnodup : (dedupe packs).Nodup := dedupe_foldl_nodup packs [] List.nodup_nil
  have hmem : ∀ y, y ∈ dedupe packs ↔ y ∈ packs := by
    intro y
    rw [dedupe, dedupe_foldl_mem packs [] y]
    simp
  refine ⟨?_, hnodup, ?_⟩
  · unfold ProtocolFileWriter.main
    cases hw : work env solver cis dir net s with
    | mk r s1 =>
      rw [hw] at h
      simp only at h
      subst h
      rfl
  · intro x hx
    exact List.count_eq_one_of_mem hnodup ((hmem x).mpr hx)

/-- Closed witness for `main_dedupes_packs`: two Bancor imports returning the
identical pack `@bancor/sdk` yield a run result holding it exactly once. -/
theorem main_dedupes_packs_witness :
    (ProtocolFileWriter.main envAbi "proj"
        [{ protocol := "bancor" }, { protocol := "bancor" }] "0.8.0"
        NetworkArg.all initState).1 = Except.ok ["@bancor/sdk"] ∧
      (["@bancor/sdk"] : List String).count "@bancor/sdk" = 1 := by
  have := main_dedupes_packs envAbi "proj" "0.8.0" NetworkArg.all
    [{ protocol := "bancor" }, { protocol := "bancor" }] initState
    ["@bancor/sdk", "@bancor/sdk"] rfl
  refine ⟨?_, ?_⟩
  · have h1 := this.1
    simpa [dedupe] using h1
  · have h2 := this.2.2 "@bancor/sdk" (by simp)
    simp only [dedupe] at h2
    exact h2

/-- Helper for C6: directory provisioning never touches the buckets. -/
theorem provisionFor_buckets (key : ProtocolKey) (dir : String) (s : WriterState) :
    (provisionFor key dir s).abis = s.abis ∧
      (provisionFor key dir s).addresses = s.addresses := by
  cases key with
  | ERROR => exact ⟨rfl, rfl⟩
  | proto p =>
    cases p with
    | BANCOR =>
      simp only [provisionFor, provision]
      split <;> exact ⟨rfl, rfl⟩
    | DYDX =>
      simp only [provisionFor, provision]
      split <;> exact ⟨rfl, rfl⟩
    | KYBER => exact ⟨rfl, rfl⟩
    | ONEINCH => exact ⟨rfl, rfl⟩
    | UNISWAP => exact ⟨rfl, rfl⟩

/-- Helper for C6: pushing address records for a non-ERROR key leaves the
ERROR address bucket empty. -/
theorem pushAddresses_keep_error_empty (key : ProtocolKey)
    (hk : key ≠ ProtocolKey.ERROR) (l : List IAddressReturn) :
    ∀ m : ProtocolKey → SupportedNetwork → List AddressEntry,
      (∀ n, m ProtocolKey.ERROR n = []) →
      ∀ n, (l.foldl (fun m a => pushAddress key a m) m) ProtocolKey.ERROR n = [] := by
  induction l with
  | nil => intro m hm n; exact hm n
  | cons a l ih =>
    intro m hm n
    refine ih (pushAddress key a m) ?_ n
    intro n'
    simp only [pushAddress]
    rw [if_neg (fun h => hk h.symm)]
    exact hm n'

/-- Helper for C6: folding one generator result preserves the empty-ERROR
invariant, because the only result ever folded under the ERROR key is the
ERROR generator's empty result. -/
theorem foldResult_error_bucket (key : ProtocolKey) (val : IWriterReturn)
    (s : WriterState) (hval : key = ProtocolKey.ERROR → val = emptyWriterReturn)
    (h : errorBucketEmpty s) : errorBucketEmpty (foldResult key val s) := by
  obtain ⟨ha, hb⟩ := h
  by_cases hk : key = ProtocolKey.ERROR
  · subst hk
    have hv := hval rfl
    subst hv
    refine ⟨?_, ?_⟩
    · simp [foldResult, ha, emptyWriterReturn]
    · intro n
      simp only [foldResult, emptyWriterReturn, List.foldl_nil]
      exact hb n
  · refine ⟨?_, ?_⟩
    · simp only [foldResult]
      rw [if_neg (fun hr => hk hr.symm)]
      exact ha
    · exact pushAddresses_keep_error_empty key hk val.Addresses s.addresses hb

/-- C6: every accumulator state reachable by folding generator results during
a run keeps the ERROR bucket's ABI list and all its per-network address lists
empty; any run segment from a state satisfying the invariant (such as the
initial state) ends in a state satisfying it. -/
theorem work_error_bucket_empty {ε : Type} (env : WriterEnv ε) (solver dir : String)
    (net : NetworkArg) (cis : List IContractImport) (s : WriterState)
    (h : errorBucketEmpty s) :
    errorBucketEmpty ((work env solver cis dir net s).2) := by
  induction cis generalizing s with
  | nil => exact h
  | cons ci rest ih =>
    have hprov : errorBucketEmpty (provisionFor (importKey ci) dir s) := by
      obtain ⟨h1, h2⟩ := provisionFor_buckets (importKey ci) dir s
      exact ⟨by rw [h1]; exact h.1, by rw [h2]; exact h.2⟩
    cases hv : generatorResult env (importKey ci) dir solver net ci with
    | error e =>
      simp only [work, hv]
      exact hprov
    | ok v =>
      have hval : importKey ci = ProtocolKey.ERROR → v = emptyWriterReturn := by
        intro hk
        rw [hk] at hv
        simp only [generatorResult] at hv
        exact (Except.ok.inj hv).symm
      have hfold := foldResult_error_bucket (importKey ci) v
        (provisionFor (importKey ci) dir s) hval hprov
      have hrec := ih (s := foldResult (importKey ci) v (provisionFor (importKey ci) dir s)) hfold
      simp only [work, hv]
      cases hw : work env solver rest dir net
          (foldResult (importKey ci) v (provisionFor (importKey ci) dir s)) with
      | mk r s3 =>
        rw [hw] at hrec
        cases r <;> exact hrec

/-- Closed witness for `work_error_bucket_empty`: a batch mixing a Bancor
request with an unsupported one leaves the ERROR bucket empty. -/
theorem work_error_bucket_empty_witness :
    errorBucketEmpty initState ∧
      ((work envAbi "0.8.0" [{ protocol := "bancor" }, { protocol := "made_up" }]
          "proj" NetworkArg.all initState).2).abis ProtocolKey.ERROR = [] :=
  ⟨⟨rfl, fun _ => rfl⟩,
    (work_error_bucket_empty envAbi "0.8.0" "proj" NetworkArg.all
      [{ protocol := "bancor" }, { protocol := "made_up" }] initState
      ⟨rfl, fun _ => rfl⟩).1⟩

/-- C9, counterexample: the singleton engine's state is not reset between
runs.  After one run with a Bancor import, the state the next run would start
from has the BANCOR provisioning flag already `true` and a non-empty BANCOR
ABI bucket, while the claim requires the second run to start from empty state
with all flags `false`. -/
theorem singleton_state_not_reset_counterexample :
    ((ProtocolFileWriter.main envAbi "proj" [{ protocol := "bancor" }] "0.8.0"
        NetworkArg.all initState).2.1).madeDirs SupportedProtocol.BANCOR = true ∧
      initState.madeDirs SupportedProtocol.BANCOR = false ∧
      ((ProtocolFileWriter.main envAbi "proj" [{ protocol := "bancor" }] "0.8.0"
        NetworkArg.all initState).2.1).abis (ProtocolKey.proto SupportedProtocol.BANCOR) =
        [{ ABI := "BANCOR_CONTRACT_ABI" }] ∧
      initState.abis (ProtocolKey.proto SupportedProtocol.BANCOR) = [] :=
  ⟨rfl, rfl, rfl, rfl⟩

/-- Helper for C9: directory provisioning only grows the state. -/
theorem provisionFor_grows (key : ProtocolKey) (dir : String) (s : WriterState) :
    stateGrows s (provisionFor key dir s) := by
  obtain ⟨h1, h2⟩ := provisionFor_buckets key dir s
  refine ⟨?_, fun k => ⟨[], by rw [h1, List.append_nil]⟩,
    fun k n => ⟨[], by rw [h2, List.append_nil]⟩⟩
  intro p hp
  cases key with
  | ERROR => exact hp
  | proto q =>
    cases q with
    | BANCOR =>
      simp only [provisionFor, provision]
      split
      · exact hp
      · by_cases hpb : p = SupportedProtocol.BANCOR <;> simp [hpb, hp]
    | DYDX =>
      simp only [provisionFor, provision]
      split
      · exact hp
      · by_cases hpd : p = SupportedProtocol.DYDX <;> simp [hpd, hp]
    | KYBER => exact hp
    | ONEINCH => exact hp
    | UNISWAP => exact hp

/-- Helper for C9: pushing a list of address records only appends. -/
theorem pushAddresses_grows (key : ProtocolKey) (l : List IAddressReturn) :
    ∀ (m : ProtocolKey → SupportedNetwork → List AddressEntry) (k : ProtocolKey)
      (n : SupportedNetwork),
      ∃ t, (l.foldl (fun m a => pushAddress key a m) m) k n = m k n ++ t := by
  induction l with
  | nil => exact fun m k n => ⟨[], (List.append_nil _).symm⟩
  | cons a l ih =>
    intro m k n
    obtain ⟨t, ht⟩ := ih (pushAddress key a m) k n
    simp only [List.foldl_cons]
    rw [ht]
    simp only [pushAddress]
    by_cases h1 : k = key
    · by_cases h2 : n = a.NET
      · exact ⟨_, by rw [if_pos h1, if_pos h2, List.append_assoc]⟩
      · exact ⟨t, by rw [if_pos h1, if_neg h2]⟩
    · exact ⟨t, by rw [if_neg h1]⟩

/-- Helper for C9: folding one generator result only grows the state. -/
theorem foldResult_grows (key : ProtocolKey) (val : IWriterReturn) (s : WriterState) :
    stateGrows s (foldResult key val s) := by
  refine ⟨fun p hp => hp, fun k => ?_, fun k n => pushAddresses_grows key val.Addresses s.addresses k n⟩
  simp only [foldResult]
  by_cases h : k = key
  · exact ⟨val.ABIs, by rw [if_pos h]⟩
  · exact ⟨[], by rw [if_neg h, List.append_nil]⟩

/-- Helper for C9: growth composes. -/
theorem stateGrows_trans (s1 s2 s3 : WriterState)
    (h1 : stateGrows s1 s2) (h2 : stateGrows s2 s3) : stateGrows s1 s3 := by
  obtain ⟨a1, b1, c1⟩ := h1
  obtain ⟨a2, b2, c2⟩ := h2
  refine ⟨fun p hp => a2 p (a1 p hp), fun k => ?_, fun k n => ?_⟩
  · obtain ⟨t1, ht1⟩ := b1 k
    obtain ⟨t2, ht2⟩ := b2 k
    exact ⟨t1 ++ t2, by rw [ht2, ht1, List.append_assoc]⟩
  · obtain ⟨t1, ht1⟩ := c1 k n
    obtain ⟨t2, ht2⟩ := c2 k n
    exact ⟨t1 ++ t2, by rw [ht2, ht1, List.append_assoc]⟩

/-- Helper for C9: a whole batch only grows the state. -/
theorem work_grows {ε : Type} (env : WriterEnv ε) (solver dir : String)
    (net : NetworkArg) (cis : List IContractImport) (s : WriterState) :
    stateGrows s ((work env solver cis dir net s).2) := by
  induction cis generalizing s with
  | nil => exact ⟨fun p hp => hp, fun k => ⟨[], (List.append_nil _).symm⟩,
      fun k n => ⟨[], (List.append_nil _).symm⟩⟩
  | cons ci rest ih =>
    cases hv : generatorResult env (importKey ci) dir solver net ci with
    | error e =>
      simp only [work, hv]
      exact provisionFor_grows (importKey ci) dir s
    | ok v =>
      have g1 := provisionFor_grows (importKey ci) dir s
      have g2 := foldResult_grows (importKey ci) v (provisionFor (importKey ci) dir s)
      have g3 := ih (s := foldResult (importKey ci) v (provisionFor (importKey ci) dir s))
      simp only [work, hv]
      cases hw : work env solver rest dir net
          (foldResult (importKey ci) v (provisionFor (importKey ci) dir s)) with
      | mk r s3 =>
        rw [hw] at g3
        have := stateGrows_trans _ _ _ g1 (stateGrows_trans _ _ _ g2 g3)
        cases r <;> exact this

/-- C9, amended: the engine never resets its singleton state.  `main` hands
back exactly the state `#work` left behind, and that state only grows the
state the run started from: flags already `true` stay `true` and buckets keep
their prior entries; a reused engine's second run therefore starts from the
first run's accumulated state, not from the empty state. -/
theorem singleton_state_persists {ε : Type} (env : WriterEnv ε) (dir solver : String)
    (net : NetworkArg) (cis : List IContractImport) (s : WriterState) :
    (ProtocolFileWriter.main env dir cis solver net s).2.1 =
        (work env solver cis dir net s).2 ∧
      stateGrows s ((work env solver cis dir net s).2) := by
  constructor
  · unfold ProtocolFileWriter.main
    cases hw : work env solver cis dir net s with
    | mk r s1 => cases r <;> rfl
  · exact work_grows env solver dir net cis s

/-- Helper for C7: a fold appending `f x` for every element equals the
initial string followed by the join of the mapped list. -/
theorem foldl_strcat {α : Type} (l : List α) (f : α → String) :
    ∀ init : String, l.foldl (fun a x => a ++ f x) init = init ++ strJoin (l.map f) := by
  induction l with
  | nil => intro init; simp [strJoin, String.append_empty]
  | cons x xs ih =>
    intro init
    simp only [List.foldl_cons, List.map_cons, strJoin]
    rw [ih (init ++ f x), String.append_assoc]

/-- Helper for C7: a fold appending `f x` except for skipped elements equals
the initial string followed by the join over the filtered, mapped list. -/
theorem foldl_strcat_skip {α : Type} (l : List α) (c : α → Bool) (f : α → String) :
    ∀ init : String,
      l.foldl (fun a x => if c x then a else a ++ f x) init =
        init ++ strJoin ((l.filter (fun x => !(c x))).map f) := by
  induction l with
  | nil => intro init; simp [strJoin, String.append_empty]
  | cons x xs ih =>
    intro init
    simp only [List.foldl_cons, List.filter_cons]
    cases hc : c x with
    | true => simp [hc, ih init]
    | false =>
      simp only [hc, Bool.not_false, if_pos, if_neg, Bool.false_eq_true, ite_false, ite_true,
        List.map_cons, strJoin]
      rw [ih (init ++ f x), String.append_assoc]

/-- Helper for C7: a supported-protocol key never equals the ERROR key. -/
theorem protoKey_beq_error (p : SupportedProtocol) :
    (ProtocolKey.proto p == ProtocolKey.ERROR) = false := by
  cases p <;> rfl

/-- Helper for C7: the ABI file contents built by the source fold equal the
spec's ABI-registry rendering. -/
theorem buildABI_eq_spec (s : WriterState) :
    buildABIString s = renderAbiRegistrySpec s := by
  unfold buildABIString renderAbiRegistrySpec
  have hpoint : ∀ (acc : String) (kv : ProtocolKey),
      (if (s.abis kv).length == 0 || kv == ProtocolKey.ERROR then acc
       else ((s.abis kv).foldl (fun a abi => a ++ "\n  " ++ abi.ABI ++ ",")
         (acc ++ "\nexport const " ++ keyName kv ++ "_ABI = \x7b")) ++ "\n\x7d") =
      (if (s.abis kv).length == 0 || kv == ProtocolKey.ERROR then acc
       else acc ++ ("\nexport const " ++ keyName kv ++ "_ABI = \x7b"
         ++ strJoin ((s.abis kv).map (fun abi => "\n  " ++ abi.ABI ++ ","))
         ++ "\n\x7d")) := by
    intro acc kv
    by_cases h : ((s.abis kv).length == 0 || kv == ProtocolKey.ERROR) = true
    · rw [if_pos h, if_pos h]
    · rw [if_neg h, if_neg h]
      have hin : ∀ (a : String) (abi : IABIReturn),
          a ++ "\n  " ++ abi.ABI ++ "," = a ++ ("\n  " ++ abi.ABI ++ ",") := by
        intro a abi
        simp only [String.append_assoc]
      rw [List.foldl_ext _ _ _ (fun a abi _ => hin a abi), foldl_strcat]
      simp only [String.append_assoc]
  rw [List.foldl_ext _ _ _ (fun acc kv _ => hpoint acc kv), foldl_strcat_skip,
    String.empty_append]
  congr 1
  rw [entriesOrder, List.filter_append, List.filter_map]
  simp only [List.filter_cons, List.filter_nil, beq_self_eq_true, Bool.or_true, Bool.not_true,
    Bool.false_eq_true, ite_false, List.append_nil, List.map_map, Function.comp_def,
    protoKey_beq_error, Bool.or_false, keyName]

/-- Helper for C7: the addresses file contents built by the source fold equal
the spec's address-registry rendering. -/
theorem buildAddresses_eq_spec (s : WriterState) :
    buildAddressesString s = renderAddressRegistrySpec s := by
  unfold buildAddressesString renderAddressRegistrySpec
  have haddr : ∀ (kv : ProtocolKey) (n : SupportedNetwork) (a : String),
      ((s.addresses kv n).foldl
        (fun b addr => b ++ "\n      " ++ addr.ContractName ++ ": " ++ addr.Address ++ ",")
        (a ++ "\n    " ++ netName n ++ ": \x7b")) ++ "\n    \x7d," =
      a ++ ("\n    " ++ netName n ++ ": \x7b"
        ++ strJoin ((s.addresses kv n).map
            (fun addr => "\n      " ++ addr.ContractName ++ ": " ++ addr.Address ++ ","))
        ++ "\n    \x7d,") := by
    intro kv n a
    have hline : ∀ (b : String) (addr : AddressEntry),
        b ++ "\n      " ++ addr.ContractName ++ ": " ++ addr.Address ++ "," =
          b ++ ("\n      " ++ addr.ContractName ++ ": " ++ addr.Address ++ ",") := by
      intro b addr
      simp only [String.append_assoc]
    rw [List.foldl_ext _ _ _ (fun b addr _ => hline b addr), foldl_strcat]
    simp only [String.append_assoc]
  have hnet : ∀ (kv : ProtocolKey) (acc : String),
      (netOrder.foldl
        (fun a n =>
          if (s.addresses kv n).length == 0 then a
          else ((s.addresses kv n).foldl
            (fun b addr => b ++ "\n      " ++ addr.ContractName ++ ": " ++ addr.Address ++ ",")
            (a ++ "\n    " ++ netName n ++ ": \x7b")) ++ "\n    \x7d,")
        (acc ++ "\n  " ++ keyName kv ++ ": \x7b")) ++ "\n  \x7d,\n" =
      acc ++ ("\n  " ++ keyName kv ++ ": \x7b"
        ++ strJoin ((netOrder.filter (fun n => !((s.addresses kv n).length == 0))).map
            (fun n => "\n    " ++ netName n ++ ": \x7b"
              ++ strJoin ((s.addresses kv n).map
                  (fun addr => "\n      " ++ addr.ContractName ++ ": " ++ addr.Address ++ ","))
              ++ "\n    \x7d,"))
        ++ "\n  \x7d,\n") := by
    intro kv acc
    have hbody : ∀ (a : String) (n : SupportedNetwork),
        (if (s.addresses kv n).length == 0 then a
         else ((s.addresses kv n).foldl
            (fun b addr => b ++ "\n      " ++ addr.ContractName ++ ": " ++ addr.Address ++ ",")
            (a ++ "\n    " ++ netName n ++ ": \x7b")) ++ "\n    \x7d,") =
        (if (s.addresses kv n).length == 0 then a
         else a ++ ("\n    " ++ netName n ++ ": \x7b"
           ++ strJoin ((s.addresses kv n).map
               (fun addr => "\n      " ++ addr.ContractName ++ ": " ++ addr.Address ++ ","))
           ++ "\n    \x7d,")) := by
      intro a n
      by_cases h : ((s.addresses kv n).length == 0) = true
      · rw [if_pos h, if_pos h]
      · rw [if_neg h, if_neg h, haddr kv n a]
    rw [List.foldl_ext _ _ _ (fun a n _ => hbody a n), foldl_strcat_skip]
    simp only [String.append_assoc]
  have hpoint : ∀ (acc : String) (kv : ProtocolKey),
      (if kv == ProtocolKey.ERROR
          || ((s.addresses kv .MAINNET).length == 0
              && (s.addresses kv .KOVAN).length == 0
              && (s.addresses kv .ROPSTEN).length == 0) then acc
       else
        (netOrder.foldl
          (fun a n =>
            if (s.addresses kv n).length == 0 then a
            else ((s.addresses kv n).foldl
              (fun b addr => b ++ "\n      " ++ addr.ContractName ++ ": " ++ addr.Address ++ ",")
              (a ++ "\n    " ++ netName n ++ ": \x7b")) ++ "\n    \x7d,")
          (acc ++ "\n  " ++ keyName kv ++ ": \x7b")) ++ "\n  \x7d,\n") =
      (if kv == ProtocolKey.ERROR
          || ((s.addresses kv .MAINNET).length == 0
              && (s.addresses kv .KOVAN).length == 0
              && (s.addresses kv .ROPSTEN).length == 0) then acc
       else acc ++ ("\n  " ++ keyName kv ++ ": \x7b"
        ++ strJoin ((netOrder.filter (fun n => !((s.addresses kv n).length == 0))).map
            (fun n => "\n    " ++ netName n ++ ": \x7b"
              ++ strJoin ((s.addresses kv n).map
                  (fun addr => "\n      " ++ addr.ContractName ++ ": " ++ addr.Address ++ ","))
              ++ "\n    \x7d,"))
        ++ "\n  \x7d,\n")) := by
    intro acc kv
    by_cases h : (kv == ProtocolKey.ERROR
        || ((s.addresses kv .MAINNET).length == 0
            && (s.addresses kv .KOVAN).length == 0
            && (s.addresses kv .ROPSTEN).length == 0)) = true
    · rw [if_pos h, if_pos h]
    · rw [if_neg h, if_neg h, hnet kv acc]
  rw [List.foldl_ext _ _ _ (fun acc kv _ => hpoint acc kv), foldl_strcat_skip]
  have habc : ∀ x y z : Bool, (!(x && y && z)) = (!x || (!y || !z)) := by decide
  congr 3
  rw [entriesOrder, List.filter_append, List.filter_map]
  simp only [List.filter_cons, List.filter_nil, beq_self_eq_true, Bool.true_or, Bool.not_true,
    Bool.false_eq_true, ite_false, List.append_nil, List.map_map, Function.comp_def,
    protoKey_beq_error, Bool.false_or, keyName, habc, netOrder, List.any_cons, List.any_nil,
    Bool.or_false]

/-- C7: for every final accumulator state, the rendered ABI registry consists
of one `<PROTOCOL>_ABI` named export per protocol bucket with at least one
fragment (fragments comma-terminated in stored order), and the rendered
address registry nests protocol, then network, then `ContractName: Address`
entries in stored order, with the ERROR bucket, empty buckets and empty
networks omitted from both artifacts: the source renderers coincide with the
spec renderers stated in exactly those terms. -/
theorem render_registries_match_spec (s : WriterState) :
    buildABIString s = renderAbiRegistrySpec s ∧
      buildAddressesString s = renderAddressRegistrySpec s :=
  ⟨buildABI_eq_spec s, buildAddresses_eq_spec s⟩
